import Mathlib

/-
Verification of the provider-configuration logic of the pfSense Terraform
provider (`pfsense/provider.go`): the URL validator `isValidHTTPURL`, the
TLS-policy branch, the authentication-mode resolution, and the timeout
handling of `providerConfigure`.

Modelling conventions:
* Go strings are modelled as `List Char` (`GoString`).  Go operates on bytes;
  on ASCII data (all concrete inputs considered here) the byte-wise and
  char-wise views coincide, and every byte-level test of the Go code is
  mirrored on `Char.toNat`.
* Fallible Go functions returning `(T, error)` are modelled as `Except`.
* `time.Duration` (Go `int64` nanoseconds) is modelled as `Int` with explicit
  wrap-around at 2^64 (two's complement).
-/

namespace PfSenseProvider

/-- A Go string, viewed as its character sequence. -/
abbrev GoString := List Char

/-- Coerce a Lean string literal to the `GoString` model. -/
def gs (s : String) : GoString := s.toList

/-! ## Model of Go `net/url` (standard library), as consumed by
`isValidHTTPURL`.  Each definition mirrors the function of the same name in
`net/url/url.go`; only `Userinfo` values are dropped (the provider never
reads them), their error paths are kept. -/

/-- Errors produced by the `net/url` parsing routines, one constructor per
distinct `errors.New`/`fmt.Errorf` site reachable from `url.Parse`. -/
inductive URLParseError
  | invalidControlCharacter      -- "net/url: invalid control character in URL"
  | emptyURL                     -- "empty url" (viaRequest only)
  | missingProtocolScheme        -- "missing protocol scheme"
  | invalidURIForRequest         -- "invalid URI for request" (viaRequest only)
  | firstPathSegmentColon        -- "first path segment in URL cannot contain colon"
  | missingCloseBracketInHost    -- "missing ']' in host"
  | invalidPortAfterHost         -- "invalid port ... after host"
  | invalidUserinfo              -- "net/url: invalid userinfo"
  | invalidURLEscape             -- EscapeError: "invalid URL escape ..."
  | invalidHostCharacter         -- InvalidHostError: "invalid character ... in host name"
deriving DecidableEq

/-- `stringContainsCTLByte`: does the string hold an ASCII control byte? -/
def isCTLByte (c : Char) : Bool := c.toNat < 0x20 || c.toNat == 0x7f

/-- Go `stringContainsCTLByte`. -/
def containsCTLByte (s : GoString) : Bool := s.any isCTLByte

def isASCIILetter (c : Char) : Bool :=
  ('a' ≤ c && c ≤ 'z') || ('A' ≤ c && c ≤ 'Z')

def isASCIIDigit (c : Char) : Bool := '0' ≤ c && c ≤ '9'

/-- ASCII lower-casing, as `strings.ToLower` acts on the (ASCII-only)
characters a URL scheme may contain. -/
def toLowerChar (c : Char) : Char :=
  if 'A' ≤ c && c ≤ 'Z' then Char.ofNat (c.toNat + 32) else c

/-- Go `ishex`. -/
def ishex (c : Char) : Bool :=
  isASCIIDigit c || ('a' ≤ c && c ≤ 'f') || ('A' ≤ c && c ≤ 'F')

/-- Go `unhex`. -/
def unhex (c : Char) : Nat :=
  if isASCIIDigit c then c.toNat - '0'.toNat
  else if 'a' ≤ c && c ≤ 'f' then c.toNat - 'a'.toNat + 10
  else if 'A' ≤ c && c ≤ 'F' then c.toNat - 'A'.toNat + 10
  else 0

/-- The escape-checking modes of `net/url` that `url.Parse` exercises
(`encodeQueryComponent` is never used by `Parse` itself). -/
inductive Encoding
  | host
  | zone
  | userPassword
  | path
  | fragmentMode
deriving DecidableEq

/-- Go `shouldEscape`, restricted to the modes above. -/
def shouldEscape (c : Char) (mode : Encoding) : Bool :=
  if isASCIILetter c || isASCIIDigit c then false
  else if (mode == Encoding.host || mode == Encoding.zone) &&
      (c == '!' || c == '$' || c == '&' || c == '\'' || c == '(' || c == ')' ||
       c == '*' || c == '+' || c == ',' || c == ';' || c == '=' || c == ':' ||
       c == '[' || c == ']' || c == '<' || c == '>' || c == '"') then false
  else if c == '-' || c == '_' || c == '.' || c == '~' then false
  else if c == '$' || c == '&' || c == '+' || c == ',' || c == '/' || c == ':' ||
          c == ';' || c == '=' || c == '?' || c == '@' then
    match mode with
    | Encoding.path => c == '?'
    | Encoding.userPassword => c == '@' || c == '/' || c == '?' || c == ':'
    | Encoding.fragmentMode => false
    | _ => true
  else if mode == Encoding.fragmentMode &&
      (c == '!' || c == '(' || c == ')' || c == '*') then false
  else true

/-- Go `unescape` (un-escaping pass of `net/url`): validates `%XX` escapes,
rejects invalid host characters in `encodeHost`/`encodeZone` mode, and
decodes the escapes.  The single pass returns the first error the Go
two-pass implementation would report. -/
def unescape (mode : Encoding) : GoString → Except URLParseError GoString
  | [] => Except.ok []
  | '%' :: c1 :: c2 :: rest =>
    if !(ishex c1 && ishex c2) then Except.error URLParseError.invalidURLEscape
    else if mode == Encoding.host && unhex c1 < 8 && !(c1 == '2' && c2 == '5') then
      -- in the host, %-encoding is only allowed for non-ASCII bytes (and %25)
      Except.error URLParseError.invalidURLEscape
    else if mode == Encoding.zone &&
        !(c1 == '2' && c2 == '5') &&
        Char.ofNat (unhex c1 * 16 + unhex c2) != ' ' &&
        shouldEscape (Char.ofNat (unhex c1 * 16 + unhex c2)) Encoding.host then
      Except.error URLParseError.invalidURLEscape
    else
      match unescape mode rest with
      | Except.error e => Except.error e
      | Except.ok t => Except.ok (Char.ofNat (unhex c1 * 16 + unhex c2) :: t)
  | '%' :: _ =>
    -- fewer than two characters follow the '%'
    Except.error URLParseError.invalidURLEscape
  | '+' :: rest =>
    -- '+' is only rewritten in encodeQueryComponent mode, never reached here
    match unescape mode rest with
    | Except.error e => Except.error e
    | Except.ok t => Except.ok ('+' :: t)
  | c :: rest =>
    if (mode == Encoding.host || mode == Encoding.zone) && c.toNat < 0x80 &&
        shouldEscape c mode then
      Except.error URLParseError.invalidHostCharacter
    else
      match unescape mode rest with
      | Except.error e => Except.error e
      | Except.ok t => Except.ok (c :: t)

/-- Index of the first occurrence of `sub` in `s` (Go `strings.Index`). -/
def goIndex (s sub : GoString) : Option Nat :=
  (List.range (s.length + 1)).find? (fun i => sub.isPrefixOf (s.drop i))

/-- Index of the last occurrence of `sub` in `s` (Go `strings.LastIndex`). -/
def goLastIndex (s sub : GoString) : Option Nat :=
  ((List.range (s.length + 1)).filter (fun i => sub.isPrefixOf (s.drop i))).getLast?

/-- Go `strings.Cut` at a single character, returning (before, after). -/
def goCut (s : GoString) (c : Char) : GoString × GoString :=
  match goIndex s [c] with
  | some i => (s.take i, s.drop (i + 1))
  | none => (s, [])

/-- Go `validOptionalPort`. -/
def validOptionalPort (port : GoString) : Bool :=
  match port with
  | [] => true
  | ':' :: digits => digits.all (fun b => '0' ≤ b && b ≤ '9')
  | _ => false

/-- Go `validUserinfo`. -/
def validUserinfo (s : GoString) : Bool :=
  s.all (fun r =>
    isASCIILetter r || isASCIIDigit r ||
    r == '-' || r == '.' || r == '_' || r == ':' || r == '~' || r == '!' ||
    r == '$' || r == '&' || r == '\'' || r == '(' || r == ')' || r == '*' ||
    r == '+' || r == ',' || r == ';' || r == '=' || r == '%' || r == '@')

/-- Go `parseHost`. -/
def parseHost (host : GoString) : Except URLParseError GoString :=
  if ['['].isPrefixOf host then
    -- an IP-Literal per RFC 3986 / RFC 6874
    match goLastIndex host [']'] with
    | none => Except.error URLParseError.missingCloseBracketInHost
    | some i =>
      if !validOptionalPort (host.drop (i + 1)) then
        Except.error URLParseError.invalidPortAfterHost
      else
        match goIndex (host.take i) (gs "%25") with
        | some zone =>
          match unescape Encoding.host (host.take zone) with
          | Except.error e => Except.error e
          | Except.ok host1 =>
            match unescape Encoding.zone ((host.take i).drop zone) with
            | Except.error e => Except.error e
            | Except.ok host2 =>
              match unescape Encoding.host (host.drop i) with
              | Except.error e => Except.error e
              | Except.ok host3 => Except.ok (host1 ++ host2 ++ host3)
        | none => unescape Encoding.host host
  else
    match goLastIndex host [':'] with
    | some i =>
      if !validOptionalPort (host.drop i) then
        Except.error URLParseError.invalidPortAfterHost
      else unescape Encoding.host host
    | none => unescape Encoding.host host

/-- Go `parseAuthority`, returning the host; userinfo values are validated
and unescaped exactly as in Go (for their error effects) but not kept. -/
def parseAuthority (authority : GoString) : Except URLParseError GoString :=
  match goLastIndex authority ['@'] with
  | none => parseHost authority
  | some i =>
    match parseHost (authority.drop (i + 1)) with
    | Except.error e => Except.error e
    | Except.ok host =>
      let userinfo := authority.take i
      if !validUserinfo userinfo then
        Except.error URLParseError.invalidUserinfo
      else if (goIndex userinfo [':']).isNone then
        match unescape Encoding.userPassword userinfo with
        | Except.error e => Except.error e
        | Except.ok _ => Except.ok host
      else
        match unescape Encoding.userPassword (goCut userinfo ':').1 with
        | Except.error e => Except.error e
        | Except.ok _ =>
          match unescape Encoding.userPassword (goCut userinfo ':').2 with
          | Except.error e => Except.error e
          | Except.ok _ => Except.ok host

/-- The fields of Go `url.URL` that `isValidHTTPURL` and `providerConfigure`
can observe (`User` is never read by the provider and is omitted). -/
structure URL where
  scheme : GoString := []
  opq : GoString := []          -- url.Opaque (rootless path)
  host : GoString := []
  path : GoString := []
  rawQuery : GoString := []
  fragment : GoString := []
  forceQuery : Bool := false
  omitHost : Bool := false
deriving DecidableEq

/-- Go `getScheme`: the loop with running index `i` over the original
string `orig`. -/
def getSchemeLoop (orig : GoString) : Nat → GoString → Except URLParseError (GoString × GoString)
  | _, [] => Except.ok ([], orig)
  | i, c :: cs =>
    if isASCIILetter c then getSchemeLoop orig (i + 1) cs
    else if isASCIIDigit c || c == '+' || c == '-' || c == '.' then
      if i == 0 then Except.ok ([], orig) else getSchemeLoop orig (i + 1) cs
    else if c == ':' then
      if i == 0 then Except.error URLParseError.missingProtocolScheme
      else Except.ok (orig.take i, orig.drop (i + 1))
    else Except.ok ([], orig)

/-- Go `getScheme`. -/
def getScheme (rawURL : GoString) : Except URLParseError (GoString × GoString) :=
  getSchemeLoop rawURL 0 rawURL

/-- Go `parse(rawURL, viaRequest)` — everything of `url.Parse` except the
fragment handling. -/
def urlParseMain (rawURL : GoString) (viaRequest : Bool) : Except URLParseError URL :=
  if containsCTLByte rawURL then Except.error URLParseError.invalidControlCharacter
  else if rawURL == [] && viaRequest then Except.error URLParseError.emptyURL
  else if rawURL == gs "*" then Except.ok { path := gs "*" }
  else
    match getScheme rawURL with
    | Except.error e => Except.error e
    | Except.ok (scheme0, rest0) =>
      let scheme := scheme0.map toLowerChar
      -- a lone trailing "?" sets ForceQuery, otherwise cut at the first "?"
      let restQuery : GoString × GoString × Bool :=
        if rest0.getLast? == some '?' && !(rest0.dropLast.contains '?') then
          (rest0.dropLast, [], true)
        else
          ((goCut rest0 '?').1, (goCut rest0 '?').2, false)
      let rest := restQuery.1
      let rawQuery := restQuery.2.1
      let forceQuery := restQuery.2.2
      if !(['/'].isPrefixOf rest) && scheme != [] then
        -- a rootless path is considered opaque per RFC 3986
        Except.ok { scheme := scheme, opq := rest, rawQuery := rawQuery,
                    forceQuery := forceQuery }
      else
        match (if !(['/'].isPrefixOf rest) then
                 (if viaRequest then Except.error URLParseError.invalidURIForRequest
                  else if (goCut rest '/').1.contains ':' then
                    Except.error URLParseError.firstPathSegmentColon
                  else Except.ok ())
               else Except.ok ()) with
        | Except.error e => Except.error e
        | Except.ok _ =>
          if (scheme != [] || (!viaRequest && !(['/', '/', '/'].isPrefixOf rest))) &&
              ['/', '/'].isPrefixOf rest then
            let afterSlashes := rest.drop 2
            let authority :=
              match goIndex afterSlashes ['/'] with
              | some i => afterSlashes.take i
              | none => afterSlashes
            let rest2 :=
              match goIndex afterSlashes ['/'] with
              | some i => afterSlashes.drop i
              | none => []
            match parseAuthority authority with
            | Except.error e => Except.error e
            | Except.ok host =>
              match unescape Encoding.path rest2 with
              | Except.error e => Except.error e
              | Except.ok path =>
                Except.ok { scheme := scheme, host := host, path := path,
                            rawQuery := rawQuery, forceQuery := forceQuery }
          else
            let omitHost := scheme != [] && ['/'].isPrefixOf rest
            match unescape Encoding.path rest with
            | Except.error e => Except.error e
            | Except.ok path =>
              Except.ok { scheme := scheme, path := path, rawQuery := rawQuery,
                          forceQuery := forceQuery, omitHost := omitHost }

/-- Go `url.Parse`: split off the fragment, parse the rest, then set the
(unescaped) fragment. -/
def goURLParse (rawURL : GoString) : Except URLParseError URL :=
  match urlParseMain (goCut rawURL '#').1 false with
  | Except.error e => Except.error e
  | Except.ok u =>
    if (goCut rawURL '#').2 == ([] : GoString) then Except.ok u
    else
      match unescape Encoding.fragmentMode (goCut rawURL '#').2 with
      | Except.error e => Except.error e
      | Except.ok f => Except.ok { u with fragment := f }

/-! ## `isValidHTTPURL` (provider.go lines 43-53) -/

/-- The two `fmt.Errorf` sites of `isValidHTTPURL`, by kind. -/
inductive URLValidationError
  | notValidHTTPURL          -- "%q must be a valid HTTP/HTTPS URL, got: %q"
  | hasPathQueryOrFragment   -- "%q should not contain any path, query or fragment, got: %q"
deriving DecidableEq

/-- `isValidHTTPURL` from provider.go.  When `url.Parse` fails it returns
`nil, err`; the code appends the first error and then reads `url.Path` from
the nil pointer, so the function panics instead of returning — modelled as
`none`.  On a successful parse it returns the collected error list. -/
def isValidHTTPURL (value : String) : Option (List URLValidationError) :=
  match goURLParse (gs value) with
  | Except.error _ => none
  | Except.ok u =>
    let errs : List URLValidationError :=
      if u.scheme ≠ gs "http" ∧ u.scheme ≠ gs "https" then
        [URLValidationError.notValidHTTPURL]
      else []
    let errs :=
      if u.path ≠ [] ∨ u.rawQuery ≠ [] ∨ u.fragment ≠ [] then
        errs ++ [URLValidationError.hasPathQueryOrFragment]
      else errs
    some errs

/-- The scheme of the parse of an endpoint string, when it parses. -/
def urlScheme (s : String) : Option GoString :=
  match goURLParse (gs s) with
  | Except.ok u => some u.scheme
  | Except.error _ => none

/-! ## Terraform SDK `ResourceData` and `GetOk` -/

/-- The provider's configuration surface: the optional settings of the
schema in `Provider()`.  `url` is `Required`; every other field is
`Optional` and is `none` when absent from the configuration. -/
structure ResourceData where
  url : String
  user : Option String := none
  password : Option String := none
  jwt_token : Option String := none
  api_client_id : Option String := none
  api_client_token : Option String := none
  skip_tls : Option Bool := none
  timeout : Option Int := none
deriving DecidableEq

/-- First result of `d.GetOk` on a string setting: the stored value, or the
zero value `""` when unset. -/
def getOkStrValue (o : Option String) : String := o.getD ""

/-- Second result of `d.GetOk` on a string setting.  The SDK reports
`ok = true` only when the setting "has been set to a non-zero value", so an
explicit `""` is indistinguishable from an unset field. -/
def getOkStrOk (o : Option String) : Bool :=
  match o with
  | none => false
  | some s => if s = "" then false else true

/-- First result of `d.GetOk` on a bool setting (zero value `false`). -/
def getOkBoolValue (o : Option Bool) : Bool := o.getD false

/-- Second result of `d.GetOk` on a bool setting: `true` only for a field
set to a non-zero value, so an explicit `false` reads as unset. -/
def getOkBoolOk (o : Option Bool) : Bool := o.getD false

/-! ## `pfsenseapi.Config` and `providerConfigure` (provider.go lines 112-180) -/

/-- The fields of `pfsenseapi.Config` that `providerConfigure` writes.
`Timeout` is a `time.Duration`: `int64` nanoseconds. -/
structure Config where
  Host : String := ""
  SkipTLS : Bool := false
  Timeout : Int := 0
  JWTAuthEnabled : Bool := false
  JWTToken : String := ""
  LocalAuthEnabled : Bool := false
  User : String := ""
  Password : String := ""
  TokenAuthEnabled : Bool := false
  ApiClientID : String := ""
  ApiClientToken : String := ""
deriving DecidableEq

/-- The four error sites of `providerConfigure`, by kind (spec names:
TLSPolicyConflict, MissingCredential ×2, AmbiguousAuth). -/
inductive ConfigError
  | cannotEnforceTLS (url : String)  -- "Cannot enforce TLS for url %s"
  | passwordRequired                 -- "password is required when username is provided"
  | apiClientTokenRequired           -- "api_client_token is required when api_client_id is provided"
  | onlyOneAuth                      -- "only one form of authentication should be provided"
deriving DecidableEq

/-- Wrap an unbounded integer into the two's-complement `int64` range
(the literals are 2^63 and 2^64), as Go arithmetic on `time.Duration` does. -/
def int64wrap (n : Int) : Int :=
  (n + 9223372036854775808) % 18446744073709551616 - 9223372036854775808

/-- `time.Second` in nanoseconds. -/
def goSecond : Int := 1000000000

/-- Go `int64` multiplication (`time.Duration(n) * time.Second`). -/
def durationMul (a b : Int) : Int := int64wrap (a * b)

/-- The TLS-policy branch, provider.go lines 116-124.  Takes the two results
of `GetOk("skip_tls")`.  In the second branch the source assigns
`skipTLSExists = true` — not `skipTLSValue` — and `skipTLSExists` is never
read again, so the assignment has no effect on the result. -/
def resolveSkipTLS (url : String) (skipTLSValue : Bool) (skipTLSExists : Bool) :
    Except ConfigError Bool :=
  if (gs "https://").isPrefixOf (gs url) then
    if !skipTLSExists then Except.ok false
    else Except.ok skipTLSValue
  else if !skipTLSExists then
    Except.ok skipTLSValue
  else if !skipTLSValue then
    Except.error (ConfigError.cannotEnforceTLS url)
  else Except.ok skipTLSValue

/-- "Check for JWT auth", provider.go lines 132-136. -/
def jwtStep (d : ResourceData) (c : Config) : Config :=
  if getOkStrOk d.jwt_token then
    { c with JWTAuthEnabled := true, JWTToken := getOkStrValue d.jwt_token }
  else c

/-- "Check for local auth", provider.go lines 138-148. -/
def localStep (d : ResourceData) (c : Config) : Except ConfigError Config :=
  if getOkStrOk d.user then
    let c2 := { c with LocalAuthEnabled := true, User := getOkStrValue d.user }
    if !getOkStrOk d.password then Except.error ConfigError.passwordRequired
    else Except.ok { c2 with Password := getOkStrValue d.password }
  else Except.ok c

/-- "Check for token auth", provider.go lines 150-160. -/
def tokenStep (d : ResourceData) (c : Config) : Except ConfigError Config :=
  if getOkStrOk d.api_client_id then
    let c2 := { c with TokenAuthEnabled := true, ApiClientID := getOkStrValue d.api_client_id }
    if !getOkStrOk d.api_client_token then Except.error ConfigError.apiClientTokenRequired
    else Except.ok { c2 with ApiClientToken := getOkStrValue d.api_client_token }
  else Except.ok c

/-- "Validate only one form of auth is present", provider.go lines 162-172. -/
def authCount (c : Config) : Nat :=
  (if c.JWTAuthEnabled then 1 else 0) +
  (if c.LocalAuthEnabled then 1 else 0) +
  (if c.TokenAuthEnabled then 1 else 0)

/-- The authentication phase of `providerConfigure`: the three auth blocks
followed by the mutual-exclusion check (provider.go lines 132-176). -/
def applyAuth (d : ResourceData) (c0 : Config) : Except ConfigError Config :=
  match localStep d (jwtStep d c0) with
  | Except.error e => Except.error e
  | Except.ok c2 =>
    match tokenStep d c2 with
    | Except.error e => Except.error e
    | Except.ok c4 =>
      if authCount c4 > 1 then Except.error ConfigError.onlyOneAuth
      else Except.ok c4

/-- `providerConfigure` (provider.go lines 112-180).  `pfsenseapi.NewClient`
only wraps the config, so the resolved `Config` stands for the constructed
client.  `d.Get("timeout")` yields the schema default `5` when the setting
is absent. -/
def providerConfigure (d : ResourceData) : Except ConfigError Config :=
  match resolveSkipTLS d.url (getOkBoolValue d.skip_tls) (getOkBoolOk d.skip_tls) with
  | Except.error e => Except.error e
  | Except.ok skipTLS =>
    applyAuth d
      { Host := d.url, SkipTLS := skipTLS,
        Timeout := durationMul (d.timeout.getD 5) goSecond }

/-! ## Helper lemmas -/

/-- `int64wrap` is the identity on the `int64` range. -/
theorem int64wrap_eq_self {x : Int} (h1 : -9223372036854775808 ≤ x)
    (h2 : x < 9223372036854775808) : int64wrap x = x := by
  unfold int64wrap
  have h3 : (0 : Int) ≤ x + 9223372036854775808 := by omega
  have h4 : x + 9223372036854775808 < 18446744073709551616 := by omega
  rw [Int.emod_eq_of_lt h3 h4]
  omega

/-- The TLS-policy branch never fails on the results of `GetOk("skip_tls")`:
the SDK reports `ok = true` only for an explicit `true`, so the error branch
(which needs `ok = true` and value `false`) is unreachable. -/
theorem resolveSkipTLS_getOk_ok (url : String) (o : Option Bool) :
    ∃ b, resolveSkipTLS url (getOkBoolValue o) (getOkBoolOk o) = Except.ok b := by
  cases o with
  | none =>
    refine ⟨false, ?_⟩
    unfold resolveSkipTLS getOkBoolValue getOkBoolOk
    split <;> simp
  | some b =>
    cases b with
    | false =>
      refine ⟨false, ?_⟩
      unfold resolveSkipTLS getOkBoolValue getOkBoolOk
      split <;> simp
    | true =>
      refine ⟨true, ?_⟩
      unfold resolveSkipTLS getOkBoolValue getOkBoolOk
      split <;> simp

/-- `jwtStep` only touches the JWT fields. -/
theorem jwtStep_core (d : ResourceData) (c : Config) :
    (jwtStep d c).Host = c.Host ∧ (jwtStep d c).SkipTLS = c.SkipTLS ∧
    (jwtStep d c).Timeout = c.Timeout := by
  unfold jwtStep
  split <;> exact ⟨rfl, rfl, rfl⟩

/-- A successful `localStep` only touches the local-auth fields. -/
theorem localStep_ok_core {d : ResourceData} {c c2 : Config}
    (h : localStep d c = Except.ok c2) :
    c2.Host = c.Host ∧ c2.SkipTLS = c.SkipTLS ∧ c2.Timeout = c.Timeout := by
  unfold localStep at h
  split at h
  · split at h
    · simp at h
    · simp only [Except.ok.injEq] at h
      subst h
      exact ⟨rfl, rfl, rfl⟩
  · simp only [Except.ok.injEq] at h
    subst h
    exact ⟨rfl, rfl, rfl⟩

/-- A successful `tokenStep` only touches the token-auth fields. -/
theorem tokenStep_ok_core {d : ResourceData} {c c2 : Config}
    (h : tokenStep d c = Except.ok c2) :
    c2.Host = c.Host ∧ c2.SkipTLS = c.SkipTLS ∧ c2.Timeout = c.Timeout := by
  unfold tokenStep at h
  split at h
  · split at h
    · simp at h
    · simp only [Except.ok.injEq] at h
      subst h
      exact ⟨rfl, rfl, rfl⟩
  · simp only [Except.ok.injEq] at h
    subst h
    exact ⟨rfl, rfl, rfl⟩

/-- A successful auth phase leaves `Host`, `SkipTLS` and `Timeout` as the
client factory received them. -/
theorem applyAuth_ok_core {d : ResourceData} {c0 cf : Config}
    (h : applyAuth d c0 = Except.ok cf) :
    cf.Host = c0.Host ∧ cf.SkipTLS = c0.SkipTLS ∧ cf.Timeout = c0.Timeout := by
  unfold applyAuth at h
  split at h
  · simp at h
  · rename_i c2 hl
    split at h
    · simp at h
    · rename_i c4 ht
      split at h
      · simp at h
      · simp only [Except.ok.injEq] at h
        subst h
        obtain ⟨l1, l2, l3⟩ := localStep_ok_core hl
        obtain ⟨t1, t2, t3⟩ := tokenStep_ok_core ht
        obtain ⟨j1, j2, j3⟩ := jwtStep_core d c0
        exact ⟨by rw [t1, l1, j1], by rw [t2, l2, j2], by rw [t3, l3, j3]⟩

/-! ## Claim theorems -/

/-- Configuration with a plain-HTTP endpoint and `skip_tls` unset. -/
def dHttpUnset : ResourceData := { url := "http://10.0.0.1" }

/-- The client configuration the code resolves for `dHttpUnset`. -/
def cfgHttpUnset : Config :=
  { Host := "http://10.0.0.1", SkipTLS := false, Timeout := 5 * goSecond }

/-- Claim C1 (refuted by the code, documenting the bug): for an `http`
endpoint with `skip_tls` unset, the claim (and the schema's own description
of `skip_tls`) says the resolved flag is `true`, but the code resolves it to
`false`: the non-HTTPS branch assigns `skipTLSExists = true` instead of
`skipTLSValue = true`, and the value — zero-initialised to `false` by
`GetOk` — is what reaches the client factory. -/
theorem http_unset_resolves_skipTLS_false :
    providerConfigure dHttpUnset = Except.ok cfgHttpUnset ∧
    cfgHttpUnset.SkipTLS = false :=
  ⟨rfl, rfl⟩

/-- Claim C2: with a valid endpoint of scheme `https` and `skip_tls` unset,
the TLS-policy branch resolves the skip flag to `false` (verification on by
default), and any client configuration the resolution produces carries
`SkipTLS = false`. -/
theorem https_unset_skip_tls_verifies (d : ResourceData)
    (hv : isValidHTTPURL d.url = some [])
    (hs : urlScheme d.url = some (gs "https"))
    (ho : d.skip_tls = none) :
    resolveSkipTLS d.url (getOkBoolValue d.skip_tls) (getOkBoolOk d.skip_tls) =
      Except.ok false ∧
    ∀ c, providerConfigure d = Except.ok c → c.SkipTLS = false := by
  have h1 : resolveSkipTLS d.url false false = Except.ok false := by
    unfold resolveSkipTLS
    split <;> simp
  rw [ho]
  refine ⟨h1, ?_⟩
  intro c hc
  unfold providerConfigure at hc
  rw [ho] at hc
  have h2 : getOkBoolValue none = false := rfl
  have h3 : getOkBoolOk none = false := rfl
  rw [h2, h3, h1] at hc
  have := applyAuth_ok_core hc
  rw [this.2.1]

/-- Concrete input for the C2 witness. -/
def dHttpsNoAuth : ResourceData := { url := "https://192.168.1.1" }

/-- The configuration resolved for `dHttpsNoAuth`. -/
def cfgHttpsNoAuth : Config :=
  { Host := "https://192.168.1.1", SkipTLS := false, Timeout := 5 * goSecond }

/-- Witness for C2 at the spec's example `url="https://192.168.1.1"`. -/
theorem https_unset_skip_tls_verifies_witness :
    providerConfigure dHttpsNoAuth = Except.ok cfgHttpsNoAuth ∧
    cfgHttpsNoAuth.SkipTLS = false :=
  ⟨rfl, (https_unset_skip_tls_verifies dHttpsNoAuth rfl rfl rfl).2 cfgHttpsNoAuth rfl⟩

/-- Configuration with a plain-HTTP endpoint and `skip_tls` explicitly
`false`. -/
def dHttpSkipTLSFalse : ResourceData :=
  { url := "http://10.0.0.1", skip_tls := some false }

/-- The client configuration the code resolves for `dHttpSkipTLSFalse`. -/
def cfgHttpSkipTLSFalse : Config :=
  { Host := "http://10.0.0.1", SkipTLS := false, Timeout := 5 * goSecond }

/-- Claim C3 (refuted by the code, documenting the bug): an explicit
`skip_tls = false` on a non-HTTPS endpoint is claimed to fail with the
TLS-policy-conflict error, but `GetOk` reports an explicit `false` as unset
(zero value), so resolution takes the no-override branch and succeeds with
`SkipTLS = false`; the second conjunct shows the "Cannot enforce TLS" error
is unreachable for every configuration. -/
theorem skip_tls_false_http_succeeds :
    (providerConfigure dHttpSkipTLSFalse = Except.ok cfgHttpSkipTLSFalse ∧
     cfgHttpSkipTLSFalse.SkipTLS = false) ∧
    ∀ (url : String) (o : Option Bool),
      ∃ b, resolveSkipTLS url (getOkBoolValue o) (getOkBoolOk o) = Except.ok b :=
  ⟨⟨rfl, rfl⟩, resolveSkipTLS_getOk_ok⟩

/-- Claim C10 (refuted by the code, documenting the panic): on input `":"`,
`url.Parse` fails (missing protocol scheme) and returns a nil `*url.URL`;
`isValidHTTPURL` then reads `url.Path` from that nil pointer, so it panics
instead of returning an error list (`none` in the model). -/
theorem url_validator_panics_on_unparseable :
    goURLParse (gs ":") = Except.error URLParseError.missingProtocolScheme ∧
    isValidHTTPURL ":" = none :=
  ⟨rfl, rfl⟩

/-- Claim C4: supplying exactly one complete auth group — only `jwt_token`,
or only `user`+`password`, or only `api_client_id`+`api_client_token` —
resolution succeeds, enables exactly the corresponding mode with the
supplied credential values, and leaves the other two modes disabled. -/
theorem providerConfigure_single_auth_group (d : ResourceData) :
    (∀ t, d.jwt_token = some t → t ≠ "" →
      d.user = none → d.password = none →
      d.api_client_id = none → d.api_client_token = none →
      ∃ c, providerConfigure d = Except.ok c ∧
        c.JWTAuthEnabled = true ∧ c.JWTToken = t ∧
        c.LocalAuthEnabled = false ∧ c.TokenAuthEnabled = false) ∧
    (∀ u p, d.user = some u → u ≠ "" → d.password = some p → p ≠ "" →
      d.jwt_token = none → d.api_client_id = none → d.api_client_token = none →
      ∃ c, providerConfigure d = Except.ok c ∧
        c.LocalAuthEnabled = true ∧ c.User = u ∧ c.Password = p ∧
        c.JWTAuthEnabled = false ∧ c.TokenAuthEnabled = false) ∧
    (∀ i t, d.api_client_id = some i → i ≠ "" →
      d.api_client_token = some t → t ≠ "" →
      d.jwt_token = none → d.user = none → d.password = none →
      ∃ c, providerConfigure d = Except.ok c ∧
        c.TokenAuthEnabled = true ∧ c.ApiClientID = i ∧ c.ApiClientToken = t ∧
        c.JWTAuthEnabled = false ∧ c.LocalAuthEnabled = false) := by
  obtain ⟨b, hb⟩ := resolveSkipTLS_getOk_ok d.url d.skip_tls
  refine ⟨?_, ?_, ?_⟩
  · intro t hj ht hu hp hi hit
    unfold providerConfigure
    rw [hb]
    simp only [applyAuth, jwtStep, localStep, tokenStep, authCount,
      getOkStrOk, getOkStrValue, hj, ht, hu, hp, hi, hit, if_neg ht]
    simp
  · intro u p hu hune hp hpne hj hi hit
    unfold providerConfigure
    rw [hb]
    simp only [applyAuth, jwtStep, localStep, tokenStep, authCount,
      getOkStrOk, getOkStrValue, hu, hp, hj, hi, hit, if_neg hune, if_neg hpne]
    simp
  · intro i t hi hine hit hitne hj hu hp
    unfold providerConfigure
    rw [hb]
    simp only [applyAuth, jwtStep, localStep, tokenStep, authCount,
      getOkStrOk, getOkStrValue, hi, hit, hj, hu, hp, if_neg hine, if_neg hitne]
    simp

/-- Concrete inputs for the C4 witness: each complete group alone. -/
def dJWTOnly : ResourceData := { url := "https://192.168.1.1", jwt_token := some "tok" }

def dLocalOnly : ResourceData :=
  { url := "https://192.168.1.1", user := some "admin", password := some "pw" }

def dTokenOnly : ResourceData :=
  { url := "https://192.168.1.1", api_client_id := some "cid",
    api_client_token := some "ctok" }

/-- Witness for C4: each of the three single-group configurations resolves
to its auth mode. -/
theorem providerConfigure_single_auth_group_witness :
    (∃ c, providerConfigure dJWTOnly = Except.ok c ∧
      c.JWTAuthEnabled = true ∧ c.JWTToken = "tok" ∧
      c.LocalAuthEnabled = false ∧ c.TokenAuthEnabled = false) ∧
    (∃ c, providerConfigure dLocalOnly = Except.ok c ∧
      c.LocalAuthEnabled = true ∧ c.User = "admin" ∧ c.Password = "pw" ∧
      c.JWTAuthEnabled = false ∧ c.TokenAuthEnabled = false) ∧
    (∃ c, providerConfigure dTokenOnly = Except.ok c ∧
      c.TokenAuthEnabled = true ∧ c.ApiClientID = "cid" ∧ c.ApiClientToken = "ctok" ∧
      c.JWTAuthEnabled = false ∧ c.LocalAuthEnabled = false) :=
  ⟨(providerConfigure_single_auth_group dJWTOnly).1 "tok" rfl (by decide)
      rfl rfl rfl rfl,
   (providerConfigure_single_auth_group dLocalOnly).2.1 "admin" "pw" rfl (by decide)
      rfl (by decide) rfl rfl rfl,
   (providerConfigure_single_auth_group dTokenOnly).2.2 "cid" "ctok" rfl (by decide)
      rfl (by decide) rfl rfl rfl⟩

/-- Claim C5: `user` without `password`, or `api_client_id` without
`api_client_token` (presence in the `GetOk` sense: set to a non-empty
string), fails with one of the two missing-credential errors, whatever the
other settings are. -/
theorem missing_credential_fails (d : ResourceData)
    (h : (getOkStrOk d.user = true ∧ getOkStrOk d.password = false) ∨
         (getOkStrOk d.api_client_id = true ∧ getOkStrOk d.api_client_token = false)) :
    providerConfigure d = Except.error ConfigError.passwordRequired ∨
    providerConfigure d = Except.error ConfigError.apiClientTokenRequired := by
  obtain ⟨b, hb⟩ := resolveSkipTLS_getOk_ok d.url d.skip_tls
  unfold providerConfigure
  rw [hb]
  rcases h with ⟨hu, hp⟩ | ⟨hi, hit⟩
  · left
    simp [applyAuth, localStep, hu, hp]
  · cases hu : getOkStrOk d.user with
    | true =>
      cases hp : getOkStrOk d.password with
      | false =>
        left
        simp [applyAuth, localStep, hu, hp]
      | true =>
        right
        simp [applyAuth, jwtStep, localStep, tokenStep, hu, hp, hi, hit]
    | false =>
      right
      simp [applyAuth, jwtStep, localStep, tokenStep, hu, hi, hit]

/-- Concrete input for the C5 witness: the spec's example
`user="admin"`, `password` absent. -/
def dUserNoPassword : ResourceData :=
  { url := "https://192.168.1.1", user := some "admin" }

/-- Witness for C5. -/
theorem missing_credential_fails_witness :
    providerConfigure dUserNoPassword = Except.error ConfigError.passwordRequired ∨
    providerConfigure dUserNoPassword = Except.error ConfigError.apiClientTokenRequired :=
  missing_credential_fails dUserNoPassword (Or.inl ⟨by decide, by decide⟩)

/-- Claim C6: when the supplied auth groups are complete (`user` only
together with `password`, `api_client_id` only together with
`api_client_token`) and at least two groups are supplied, resolution fails
with the ambiguous-auth error. -/
theorem ambiguous_auth_fails (d : ResourceData)
    (hU : getOkStrOk d.user = true → getOkStrOk d.password = true)
    (hI : getOkStrOk d.api_client_id = true → getOkStrOk d.api_client_token = true)
    (hTwo : (getOkStrOk d.jwt_token = true ∧ getOkStrOk d.user = true) ∨
            (getOkStrOk d.jwt_token = true ∧ getOkStrOk d.api_client_id = true) ∨
            (getOkStrOk d.user = true ∧ getOkStrOk d.api_client_id = true)) :
    providerConfigure d = Except.error ConfigError.onlyOneAuth := by
  obtain ⟨b, hb⟩ := resolveSkipTLS_getOk_ok d.url d.skip_tls
  unfold providerConfigure
  rw [hb]
  rcases hTwo with ⟨hj, hu⟩ | ⟨hj, hi⟩ | ⟨hu, hi⟩
  · have hp := hU hu
    cases hi : getOkStrOk d.api_client_id with
    | true =>
      have hit := hI hi
      simp [applyAuth, jwtStep, localStep, tokenStep, authCount, hj, hu, hp, hi, hit]
    | false =>
      simp [applyAuth, jwtStep, localStep, tokenStep, authCount, hj, hu, hp, hi]
  · have hit := hI hi
    cases hu : getOkStrOk d.user with
    | true =>
      have hp := hU hu
      simp [applyAuth, jwtStep, localStep, tokenStep, authCount, hj, hu, hp, hi, hit]
    | false =>
      simp [applyAuth, jwtStep, localStep, tokenStep, authCount, hj, hu, hi, hit]
  · have hp := hU hu
    have hit := hI hi
    cases hj : getOkStrOk d.jwt_token with
    | true =>
      simp [applyAuth, jwtStep, localStep, tokenStep, authCount, hj, hu, hp, hi, hit]
    | false =>
      simp [applyAuth, jwtStep, localStep, tokenStep, authCount, hj, hu, hp, hi, hit]

/-- Concrete input for the C6 witness: the spec's example
`user="admin"`, `password="x"`, `jwt_token="y"`. -/
def dLocalPlusJWT : ResourceData :=
  { url := "https://192.168.1.1", user := some "admin", password := some "x",
    jwt_token := some "y" }

/-- Witness for C6. -/
theorem ambiguous_auth_fails_witness :
    providerConfigure dLocalPlusJWT = Except.error ConfigError.onlyOneAuth :=
  ambiguous_auth_fails dLocalPlusJWT (by decide) (by decide)
    (Or.inl ⟨by decide, by decide⟩)

/-- Claim C7: a valid endpoint with none of the five auth settings present
resolves to auth mode None: the client config is produced with all three
auth-enabled flags false. -/
theorem no_auth_resolves_none (d : ResourceData)
    (hv : isValidHTTPURL d.url = some [])
    (hu : d.user = none) (hp : d.password = none) (hj : d.jwt_token = none)
    (hi : d.api_client_id = none) (hit : d.api_client_token = none) :
    ∃ c, providerConfigure d = Except.ok c ∧
      c.JWTAuthEnabled = false ∧ c.LocalAuthEnabled = false ∧
      c.TokenAuthEnabled = false := by
  obtain ⟨b, hb⟩ := resolveSkipTLS_getOk_ok d.url d.skip_tls
  unfold providerConfigure
  rw [hb]
  simp only [applyAuth, jwtStep, localStep, tokenStep, authCount,
    getOkStrOk, hu, hp, hj, hi, hit]
  simp

/-- Concrete input for the C7 witness. -/
def dHttpsNone : ResourceData := { url := "https://192.168.1.2" }

/-- Witness for C7. -/
theorem no_auth_resolves_none_witness :
    ∃ c, providerConfigure dHttpsNone = Except.ok c ∧
      c.JWTAuthEnabled = false ∧ c.LocalAuthEnabled = false ∧
      c.TokenAuthEnabled = false :=
  no_auth_resolves_none dHttpsNone rfl rfl rfl rfl rfl rfl

/-- Claim C8 (claim refuted on unparseable strings, documenting the panic;
the error-reporting guarantee holds whenever `url.Parse` succeeds): every
successfully parsed endpoint whose scheme is not exactly `http`/`https`, or
whose path, query or fragment is non-empty, gets a non-empty error list;
but a string rejected by `url.Parse` (such as `"%"`, an incomplete escape)
makes the validator dereference the nil parse result and panic instead of
reporting the appended error. -/
theorem url_validator_rejects_nonorigin :
    (∀ (s : String) (u : URL), goURLParse (gs s) = Except.ok u →
      (¬(u.scheme = gs "http" ∨ u.scheme = gs "https") ∨
       u.path ≠ [] ∨ u.rawQuery ≠ [] ∨ u.fragment ≠ []) →
      ∃ errs, isValidHTTPURL s = some errs ∧ errs ≠ []) ∧
    (goURLParse (gs "%") = Except.error URLParseError.invalidURLEscape ∧
     isValidHTTPURL "%" = none) := by
  refine ⟨?_, rfl, rfl⟩
  intro s u hparse hbad
  simp only [isValidHTTPURL, hparse]
  rcases hbad with hsch | hbad2
  · push_neg at hsch
    rw [if_pos hsch]
    by_cases hpqf : u.path ≠ [] ∨ u.rawQuery ≠ [] ∨ u.fragment ≠ []
    · rw [if_pos hpqf]
      exact ⟨_, rfl, by simp⟩
    · rw [if_neg hpqf]
      exact ⟨_, rfl, by simp⟩
  · rw [if_pos hbad2]
    by_cases hsch : u.scheme ≠ gs "http" ∧ u.scheme ≠ gs "https"
    · rw [if_pos hsch]
      exact ⟨_, rfl, by simp⟩
    · rw [if_neg hsch]
      exact ⟨_, rfl, by simp⟩

/-- The parse of `"https://x/p"`, used by the C8 witness. -/
def urlWithPath : URL := { scheme := gs "https", host := gs "x", path := gs "/p" }

/-- Witness for C8 at an endpoint with a non-empty path. -/
theorem url_validator_rejects_nonorigin_witness :
    ∃ errs, isValidHTTPURL "https://x/p" = some errs ∧ errs ≠ [] :=
  url_validator_rejects_nonorigin.1 "https://x/p" urlWithPath rfl
    (Or.inr (Or.inl (by decide)))

/-- Claim C9, amended for `int64` overflow: with `timeout` unset the
resolved duration is the schema default of 5 seconds, and an explicit
`timeout = n` yields exactly `n` seconds whenever `n * 10^9` nanoseconds
fits in `int64` (`time.Duration`); beyond that the multiplication wraps. -/
theorem timeout_resolution (d : ResourceData) :
    (d.timeout = none →
      ∀ c, providerConfigure d = Except.ok c → c.Timeout = 5 * goSecond) ∧
    (∀ n : Int, d.timeout = some n →
      -9223372036854775808 ≤ n * goSecond → n * goSecond < 9223372036854775808 →
      ∀ c, providerConfigure d = Except.ok c → c.Timeout = n * goSecond) := by
  obtain ⟨b, hb⟩ := resolveSkipTLS_getOk_ok d.url d.skip_tls
  constructor
  · intro ht c hc
    unfold providerConfigure at hc
    rw [hb, ht] at hc
    rw [(applyAuth_ok_core hc).2.2]
    show durationMul (5 : Int) goSecond = 5 * goSecond
    unfold durationMul goSecond
    rw [int64wrap_eq_self (by omega) (by omega)]
  · intro n ht hlo hhi c hc
    unfold providerConfigure at hc
    rw [hb, ht] at hc
    rw [(applyAuth_ok_core hc).2.2]
    show durationMul n goSecond = n * goSecond
    unfold durationMul
    exact int64wrap_eq_self hlo hhi

/-- Concrete input for the C9 witness: `timeout = 7`. -/
def dTimeoutSeven : ResourceData := { url := "https://198.51.100.1", timeout := some 7 }

/-- The configuration resolved for `dTimeoutSeven`. -/
def cfgTimeoutSeven : Config :=
  { Host := "https://198.51.100.1", SkipTLS := false, Timeout := 7 * goSecond }

/-- Concrete input for the C9 witness, default case: `timeout` unset. -/
def dTimeoutUnset : ResourceData := { url := "https://192.0.2.1" }

/-- The configuration resolved for `dTimeoutUnset`. -/
def cfgTimeoutUnset : Config :=
  { Host := "https://192.0.2.1", SkipTLS := false, Timeout := 5 * goSecond }

/-- Witness for C9: both the default (5 s) and an explicit 7-second
timeout. -/
theorem timeout_resolution_witness :
    (providerConfigure dTimeoutUnset = Except.ok cfgTimeoutUnset ∧
     cfgTimeoutUnset.Timeout = 5 * goSecond) ∧
    (providerConfigure dTimeoutSeven = Except.ok cfgTimeoutSeven ∧
     cfgTimeoutSeven.Timeout = 7 * goSecond) :=
  ⟨⟨rfl, (timeout_resolution dTimeoutUnset).1 rfl cfgTimeoutUnset rfl⟩,
   ⟨rfl, (timeout_resolution dTimeoutSeven).2 7 rfl (by decide) (by decide)
      cfgTimeoutSeven rfl⟩⟩

/-- Concrete input refuting C9 as stated: `timeout = 2^62` seconds. -/
def dTimeoutOverflow : ResourceData :=
  { url := "https://203.0.113.1", timeout := some 4611686018427387904 }

/-- Counterexample to C9 as stated: `timeout = 2^62` resolves to a
`Timeout` of 0 nanoseconds (the `int64` product `2^62 * 10^9` wraps to 0),
not to `2^62` seconds. -/
theorem timeout_overflow_counterexample :
    (providerConfigure dTimeoutOverflow).toOption.map Config.Timeout = some 0 ∧
    (0 : Int) ≠ 4611686018427387904 * goSecond :=
  ⟨rfl, by decide⟩

end PfSenseProvider
